import Mathlib

/-!
Verification development for the `Regular-inspection` check-in engine
(`src/checkin.py`, class `RouterCheckin`).

The Python module is shallowly embedded below.  Effectful ingredients
(HTTP responses, Playwright browser harvesting, credential login, cookie
parsing) are modelled as oracle inputs carried by per-account environment
records; a Python exception propagating out of a step is modelled as the
`Except.error` case carrying `str(e)`.  Python `float` amounts are
modelled as exact rationals (`ℚ`); Python byte strings as `List Nat`.
Run-level observable effects (console reports, pacing sleeps, persistence
writes) are modelled as an event trace.
-/

set_option maxHeartbeats 1000000

namespace Checkin

/-- Python string slicing `s[:n]` (counted in characters / code points). -/
def pyTrunc (s : String) (n : Nat) : String :=
  String.mk (s.data.take n)

/-- Python `str.lower()` (ASCII range; the engine only checks the ASCII
literal `"success"`). -/
def pyLower (s : String) : String :=
  String.mk (s.data.map Char.toLower)

/-- Is `needle` a prefix of `hay` (on character lists)? -/
def startsWithL : List Char → List Char → Bool
  | [], _ => true
  | _ :: _, [] => false
  | a :: as, b :: bs => a == b && startsWithL as bs

/-- Substring containment on character lists, Python `needle in hay`. -/
def containsSub (needle : List Char) : List Char → Bool
  | [] => startsWithL needle []
  | b :: bs => startsWithL needle (b :: bs) || containsSub needle bs

/-- Python `needle in hay` on strings. -/
def py_in (needle hay : String) : Bool :=
  containsSub needle.data hay.data

/-- Floor of a rational as an integer, `⌊x⌋` (executable). -/
def qfloor (x : ℚ) : ℤ :=
  Int.fdiv x.num (x.den : ℤ)

/-- Round-half-even to the nearest integer, Python 3 `round(x)`. -/
def roundHalfEven (x : ℚ) : ℤ :=
  let f := qfloor x
  let r := x - (f : ℚ)
  if r < 1/2 then f
  else if 1/2 < r then f + 1
  else if f % 2 = 0 then f else f + 1

/-- Python `round(x, 2)` on the exact-rational model of a float. -/
def pyRound2 (x : ℚ) : ℚ :=
  (roundHalfEven (x * 100) : ℚ) / 100

/-- Decimal rendering of an exact rational whose denominator divides a
power of ten, as Python `repr`/`str` shows the corresponding float value
(integral values get a trailing `.0`, e.g. `10.0`, `2.5`, `0.01`).
Rationals outside that family (which cannot arise from the engine's
two-decimal rounding) fall back to a fraction rendering. -/
def numRepr (q : ℚ) : String :=
  if q.den = 1 then toString q.num ++ ".0"
  else
    match (List.range 340).find? (fun e => 10 ^ e % q.den == 0) with
    | some e =>
      let m : ℤ := q.num * (10 : ℤ) ^ e / (q.den : ℤ)
      let sign := if m < 0 then "-" else ""
      let a := m.natAbs
      let ip := a / 10 ^ e
      let fp := a % 10 ^ e
      let fstr := toString fp
      let padz := String.mk (List.replicate (e - fstr.length) '0')
      sign ++ toString ip ++ "." ++ padz ++ fstr
    | none => toString q.num ++ "/" ++ toString q.den

/-- JSON values as decoded by Python's `json` module: `null`, booleans,
ints, floats, strings, arrays and objects. -/
inductive JVal where
  | null
  | bool (b : Bool)
  | int (n : ℤ)
  | float (q : ℚ)
  | str (s : String)
  | arr (elems : List JVal)
  | obj (fields : List (String × JVal))

/-- Python truthiness of a decoded JSON value. -/
def jTruthy : JVal → Bool
  | .null => false
  | .bool b => b
  | .int n => n != 0
  | .float q => q != 0
  | .str s => s != ""
  | .arr l => !l.isEmpty
  | .obj l => !l.isEmpty

/-- Truthiness of `dict.get(k)`: `None` (absent key) is falsy. -/
def optTruthy : Option JVal → Bool
  | none => false
  | some v => jTruthy v

/-- Python `dict.get(k) == n` for an integer literal `n`; note that
Python compares numerically across `int`/`float`/`bool`. -/
def pyEqInt (v : Option JVal) (n : ℤ) : Bool
  := match v with
  | some (.int m) => m == n
  | some (.float q) => q == (n : ℚ)
  | some (.bool b) => (if b then (1 : ℤ) else 0) == n
  | _ => false

/-- `obj.get(k)` on a decoded JSON object (association list, first match). -/
def jGet (o : List (String × JVal)) (k : String) : Option JVal :=
  List.lookup k o

/-- `obj.get(k, d)` with a default. -/
def jGetD (o : List (String × JVal)) (k : String) (d : JVal) : JVal :=
  (jGet o k).getD d

/-- Numeric coercion used by the balance extraction: Python lets
`int`, `float` and `bool` through arithmetic; other types raise. -/
def toNumQ : JVal → Option ℚ
  | .int n => some (n : ℚ)
  | .float q => some q
  | .bool b => some (if b then 1 else 0)
  | _ => none

/-- Python `str(v)` for a decoded JSON value, as interpolated by the
f-strings building failure messages.  Scalar cases are exact; container
rendering is abbreviated (the engine's `msg`/`message` fields are
scalars in every observed response shape). -/
def pyStr : JVal → String
  | .null => "None"
  | .bool b => if b then "True" else "False"
  | .int n => toString n
  | .float q => numRepr q
  | .str s => s
  | .arr _ => "[...]"
  | .obj _ => "\x7b...\x7d"

/-- A raw balance snapshot: `{'quota': float, 'used': float}` in the
normalized currency unit (`raw / 500000`, rounded to 2 decimals). -/
structure Balance where
  quota : ℚ
  used : ℚ
deriving DecidableEq, Repr

/-! ### SHA-256 (`hashlib.sha256`) over byte lists, big-endian -/

/-- `2^32`, the word modulus of SHA-256. -/
def p32 : Nat := 4294967296

/-- Rotate a 32-bit word right by `n`. -/
def rotr (n x : Nat) : Nat := ((x >>> n) ||| (x <<< (32 - n))) % p32

/-- SHA-256 `Ch(x,y,z)`. -/
def shaCh (x y z : Nat) : Nat := (x &&& y) ^^^ ((x ^^^ 4294967295) &&& z)

/-- SHA-256 `Maj(x,y,z)`. -/
def shaMaj (x y z : Nat) : Nat := (x &&& y) ^^^ (x &&& z) ^^^ (y &&& z)

/-- SHA-256 `Σ₀`. -/
def bigSigma0 (x : Nat) : Nat := rotr 2 x ^^^ rotr 13 x ^^^ rotr 22 x

/-- SHA-256 `Σ₁`. -/
def bigSigma1 (x : Nat) : Nat := rotr 6 x ^^^ rotr 11 x ^^^ rotr 25 x

/-- SHA-256 `σ₀`. -/
def smallSigma0 (x : Nat) : Nat := rotr 7 x ^^^ rotr 18 x ^^^ (x >>> 3)

/-- SHA-256 `σ₁`. -/
def smallSigma1 (x : Nat) : Nat := rotr 17 x ^^^ rotr 19 x ^^^ (x >>> 10)

/-- The 64 SHA-256 round constants. -/
def shaK : List Nat :=
  [1116352408, 1899447441, 3049323471, 3921009573, 961987163,
   1508970993, 2453635748, 2870763221, 3624381080, 310598401,
   607225278, 1426881987, 1925078388, 2162078206, 2614888103,
   3248222580, 3835390401, 4022224774, 264347078, 604807628,
   770255983, 1249150122, 1555081692, 1996064986, 2554220882,
   2821834349, 2952996808, 3210313671, 3336571891, 3584528711,
   113926993, 338241895, 666307205, 773529912, 1294757372,
   1396182291, 1695183700, 1986661051, 2177026350, 2456956037,
   2730485921, 2820302411, 3259730800, 3345764771, 3516065817,
   3600352804, 4094571909, 275423344, 430227734, 506948616,
   659060556, 883997877, 958139571, 1322822218, 1537002063,
   1747873779, 1955562222, 2024104815, 2227730452, 2361852424,
   2428436474, 2756734187, 3204031479, 3329325298]

/-- The eight 32-bit hash words of a SHA-256 state. -/
structure Sha where
  h0 : Nat
  h1 : Nat
  h2 : Nat
  h3 : Nat
  h4 : Nat
  h5 : Nat
  h6 : Nat
  h7 : Nat

/-- The SHA-256 initial hash value. -/
def shaInit : Sha :=
  ⟨1779033703, 3144134277, 1013904242, 2773480762, 1359893119, 2600822924, 528734635, 1541459225⟩

/-- Big-endian bytes of `n * 8` (the bit length), 8 bytes. -/
def lenBytes (bitLen : Nat) : List Nat :=
  (List.range 8).map (fun i => (bitLen >>> (8 * (7 - i))) % 256)

/-- SHA-256 message padding: append `0x80`, zeros, and the 64-bit length. -/
def shaPad (msg : List Nat) : List Nat :=
  let L := msg.length
  msg ++ [0x80] ++ List.replicate ((64 - ((L + 9) % 64)) % 64) 0 ++ lenBytes (L * 8)

/-- Split a byte list into 64-byte chunks. -/
def toChunks (l : List Nat) : List (List Nat) :=
  if h : l = [] then [] else l.take 64 :: toChunks (l.drop 64)
termination_by l.length
decreasing_by
  simp only [List.length_drop]
  have := List.length_pos.mpr h
  omega

/-- Big-endian word from a byte list. -/
def bytesToWord (bs : List Nat) : Nat := bs.foldl (fun a b => a * 256 + b) 0

/-- The first 16 schedule words of a 64-byte chunk. -/
def words16 (chunk : List Nat) : List Nat :=
  (List.range 16).map (fun i => bytesToWord ((chunk.drop (4 * i)).take 4))

/-- Extend a message schedule by `k` further words. -/
def schedExtend (w : List Nat) : Nat → List Nat
  | 0 => w
  | k + 1 =>
    let i := w.length
    let nw := (smallSigma1 (w.getD (i - 2) 0) + w.getD (i - 7) 0 +
               smallSigma0 (w.getD (i - 15) 0) + w.getD (i - 16) 0) % p32
    schedExtend (w ++ [nw]) k

/-- The 64-word message schedule of a chunk. -/
def msgSchedule (chunk : List Nat) : List Nat := schedExtend (words16 chunk) 48

/-- The eight working registers of the compression loop. -/
structure Regs where
  a : Nat
  b : Nat
  c : Nat
  d : Nat
  e : Nat
  f : Nat
  g : Nat
  h : Nat

/-- One round of the SHA-256 compression function. -/
def shaRound (r : Regs) (ki wi : Nat) : Regs :=
  let t1 := (r.h + bigSigma1 r.e + shaCh r.e r.f r.g + ki + wi) % p32
  let t2 := (bigSigma0 r.a + shaMaj r.a r.b r.c) % p32
  ⟨(t1 + t2) % p32, r.a, r.b, r.c, (r.d + t1) % p32, r.e, r.f, r.g⟩

/-- Compress one 64-byte chunk into the running hash state. -/
def compressChunk (s : Sha) (chunk : List Nat) : Sha :=
  let w := msgSchedule chunk
  let r0 : Regs := ⟨s.h0, s.h1, s.h2, s.h3, s.h4, s.h5, s.h6, s.h7⟩
  let rf := (List.zip shaK w).foldl (fun r kw => shaRound r kw.1 kw.2) r0
  ⟨(s.h0 + rf.a) % p32, (s.h1 + rf.b) % p32, (s.h2 + rf.c) % p32, (s.h3 + rf.d) % p32,
   (s.h4 + rf.e) % p32, (s.h5 + rf.f) % p32, (s.h6 + rf.g) % p32, (s.h7 + rf.h) % p32⟩

/-- SHA-256 of a byte list. -/
def sha256 (msg : List Nat) : Sha :=
  (toChunks (shaPad msg)).foldl compressChunk shaInit

/-- Lowercase hex digit. -/
def hexDigit : Nat → Char
  | 0 => '0' | 1 => '1' | 2 => '2' | 3 => '3' | 4 => '4' | 5 => '5' | 6 => '6' | 7 => '7'
  | 8 => '8' | 9 => '9' | 10 => 'a' | 11 => 'b' | 12 => 'c' | 13 => 'd' | 14 => 'e' | 15 => 'f'
  | _ => '0'

/-- The 8 hex characters of a 32-bit word, most significant nibble first. -/
def wordHexChars (w : Nat) : List Char :=
  (List.range 8).map (fun i => hexDigit ((w >>> (4 * (7 - i))) % 16))

/-- The 64 hex characters of `hexdigest()`. -/
def shaHexChars (s : Sha) : List Char :=
  wordHexChars s.h0 ++ wordHexChars s.h1 ++ wordHexChars s.h2 ++ wordHexChars s.h3 ++
  wordHexChars s.h4 ++ wordHexChars s.h5 ++ wordHexChars s.h6 ++ wordHexChars s.h7

/-! ### `json.dumps(..., sort_keys=True)` of the quota-only mapping -/

/-- JSON string escaping as `json.dumps` performs it with the default
`ensure_ascii=True`: short escapes for the common controls, `\u00xx`
for other controls, `\uxxxx` for every non-ASCII character (with
surrogate pairs beyond the BMP). -/
def jsonEscapeChar (c : Char) : List Char :=
  if c = '"' then ['\\', '"']
  else if c = '\\' then ['\\', '\\']
  else if c = '\n' then ['\\', 'n']
  else if c = '\t' then ['\\', 't']
  else if c = '\r' then ['\\', 'r']
  else if c = '\x08' then ['\\', 'b']
  else if c = '\x0c' then ['\\', 'f']
  else if c.toNat < 0x20 then
    ['\\', 'u', '0', '0', hexDigit (c.toNat / 16), hexDigit (c.toNat % 16)]
  else if c.toNat < 0x7f then [c]
  else if c.toNat < 0x10000 then
    ['\\', 'u', hexDigit ((c.toNat >>> 12) % 16), hexDigit ((c.toNat >>> 8) % 16),
     hexDigit ((c.toNat >>> 4) % 16), hexDigit (c.toNat % 16)]
  else
    let v := c.toNat - 0x10000
    let hi := 0xd800 + v / 0x400
    let lo := 0xdc00 + v % 0x400
    ['\\', 'u', hexDigit ((hi >>> 12) % 16), hexDigit ((hi >>> 8) % 16),
     hexDigit ((hi >>> 4) % 16), hexDigit (hi % 16),
     '\\', 'u', hexDigit ((lo >>> 12) % 16), hexDigit ((lo >>> 8) % 16),
     hexDigit ((lo >>> 4) % 16), hexDigit (lo % 16)]

/-- A JSON string literal for key `k`. -/
def jsonStringLit (k : String) : String :=
  "\"" ++ String.mk (k.data.foldr (fun c acc => jsonEscapeChar c ++ acc) []) ++ "\""

/-- Lexicographic (code-point) strict order on strings, Python `str <`. -/
def lexLt : List Char → List Char → Bool
  | [], [] => false
  | [], _ :: _ => true
  | _ :: _, [] => false
  | a :: as, b :: bs => a.toNat < b.toNat || (a == b && lexLt as bs)

/-- Insert one key/value pair into a key-sorted association list. -/
def insertSorted (x : String × ℚ) : List (String × ℚ) → List (String × ℚ)
  | [] => [x]
  | y :: ys => if lexLt y.1.data x.1.data then y :: insertSorted x ys else x :: y :: ys

/-- Sort an association list by key (Python `sort_keys=True`). -/
def sortByKeys (l : List (String × ℚ)) : List (String × ℚ) :=
  l.foldr insertSorted []

/-- `json.dumps(simple_balances, sort_keys=True)` with the default
separators `(', ', ': ')`. -/
def dumpsSorted (simple : List (String × ℚ)) : String :=
  "\x7b" ++
  String.intercalate ", "
    ((sortByKeys simple).map (fun kv => jsonStringLit kv.1 ++ ": " ++ numRepr kv.2)) ++
  "\x7d"

/-- `str.encode()`: the serialized mapping is pure ASCII (keys are
escaped with `ensure_ascii`), so UTF-8 encoding is the code-point
embedding. -/
def strBytes (s : String) : List Nat := s.data.map Char.toNat

/-- `_generate_balance_hash` (src/checkin.py:765-769): project each
balance to its quota, serialize with sorted keys, SHA-256, and keep the
first 16 hex characters. -/
def generate_balance_hash (balances : List (String × Balance)) : String :=
  let simple := balances.map (fun kv => (kv.1, kv.2.quota))
  let balance_json := dumpsSorted simple
  String.mk ((shaHexChars (sha256 (strBytes balance_json))).take 16)

/-! ### CheckinProtocolClient -/

/-- An HTTP response as the engine observes it: the status code, the raw
body text, and the outcome of `response.json()`.  The `Except.error`
case carries `str(e)` for the exception that `.json()`-decoding (or the
subsequent attribute access on a non-object value) would raise; both
reach the same handlers in the source, so they are collapsed. -/
structure HttpResp where
  status_code : Nat
  text : String
  json : Except String (List (String × JVal))

/-- Balance extraction from the step-1 `GET /api/user/self` response
(src/checkin.py:510-530 and 592-614): on HTTP 200 with JSON `success`,
descale `quota`/`used_quota` by 500000 and round to 2 decimals.  Every
other case (non-200 including the 401 guidance path, JSON failure,
malformed `data`) only logs and leaves the balance absent. -/
def extract_balance (resp : HttpResp) : Option Balance :=
  if resp.status_code = 200 then
    match resp.json with
    | .error _ => none
    | .ok user_data =>
      if optTruthy (jGet user_data "success") then
        match jGetD user_data "data" (.obj []) with
        | .obj data =>
          match toNumQ (jGetD data "quota" (.int 0)), toNumQ (jGetD data "used_quota" (.int 0)) with
          | some rq, some ru => some ⟨pyRound2 (rq / 500000), pyRound2 (ru / 500000)⟩
          | _, _ => none
        | _ => none
      else none
  else none

/-- Step 1 with its surrounding `try/except` (src/checkin.py:505-532):
a network-level exception leaves the balance absent. -/
def self_balance : Except String HttpResp → Option Balance
  | .error _ => none
  | .ok r => extract_balance r

/-- The `msg`-then-`message`-then-default extraction of a failure
message, `result.get('msg', result.get('message', '未知错误'))`. -/
def msgField (result : List (String × JVal)) : JVal :=
  jGetD result "msg" (jGetD result "message" (.str "未知错误"))

/-- The shared HTTP-200 verdict: `ret == 1` or `code == 0` or a truthy
`success` field. -/
def signinVerdict (result : List (String × JVal)) : Bool :=
  pyEqInt (jGet result "ret") 1 || pyEqInt (jGet result "code") 0 ||
    optTruthy (jGet result "success")

/-- Interpretation of the AnyRouter `POST /api/user/sign_in` response
(src/checkin.py:541-564).  The `Except.error` case is the network-level
exception caught at line 563: message truncated to 50 characters and
the balance dropped. -/
def anyrouter_sign_interpret (balance : Option Balance) :
    Except String HttpResp → Bool × String × Option Balance
  | .error e => (false, "请求异常: " ++ pyTrunc e 50, none)
  | .ok resp =>
    if resp.status_code = 200 then
      match resp.json with
      | .ok result =>
        if signinVerdict result then (true, "签到成功", balance)
        else (false, "签到失败: " ++ pyStr (msgField result), balance)
      | .error _ =>
        if py_in "success" (pyLower resp.text) then (true, "签到成功", balance)
        else (false, "签到失败: 响应格式错误", balance)
    else (false, "签到失败: HTTP " ++ toString resp.status_code, balance)

/-- Interpretation of the AgentRouter `POST /api/user/sign_in` response
(src/checkin.py:629-659).  A JSON failure on HTTP 200 is *not* handled
locally: `response.json()` raises past the `except httpx.HTTPStatusError`
handler into the function-level `except Exception` at line 658 (the
`HTTPStatusError` handler itself is unreachable, since the client never
calls `raise_for_status`).  HTTP 404 is the keep-alive case: success
iff the step-1 balance is present. -/
def agentrouter_sign_interpret (balance : Option Balance) :
    Except String HttpResp → Bool × String × Option Balance
  | .error e => (false, "请求异常: " ++ pyTrunc e 50, none)
  | .ok resp =>
    if resp.status_code = 200 then
      match resp.json with
      | .ok result =>
        if signinVerdict result then (true, "签到成功", balance)
        else (false, "签到失败: " ++ pyStr (msgField result), balance)
      | .error e => (false, "请求异常: " ++ pyTrunc e 50, none)
    else if resp.status_code = 404 then
      match balance with
      | some b => (true, "保活成功（无签到接口）", some b)
      | none => (false, "保活失败: 无法获取用户信息", none)
    else (false, "签到失败: HTTP " ++ toString resp.status_code, balance)

/-- `_do_anyrouter_checkin` (src/checkin.py:487-566) over the two
response oracles; headers/cookies have no observable effect in the
model. -/
def do_anyrouter_checkin (self_resp sign_resp : Except String HttpResp) :
    Bool × String × Option Balance :=
  anyrouter_sign_interpret (self_balance self_resp) sign_resp

/-- `_do_agentrouter_checkin` (src/checkin.py:568-661). -/
def do_agentrouter_checkin (self_resp sign_resp : Except String HttpResp) :
    Bool × String × Option Balance :=
  agentrouter_sign_interpret (self_balance self_resp) sign_resp

/-! ### BalanceLedger -/

/-- Run-level observable events: per-account processing, pacing sleeps,
platform summaries, ledger writes and the delta report. -/
inductive Ev where
  | process (platform name : String)
  | sleep (seconds : Nat)
  | summary (platform : String)
  | record (key : String) (b : Balance)
  | deltaCheck (key : String)
  | notice (key : String) (total_recharge used_change quota_change : ℚ)
  | saveHash (h : String)
  | saveData (d : List (String × Balance))
deriving DecidableEq, Repr

/-- The mutable fields of `RouterCheckin`; the two `last_*` fields are
the durable state loaded in `__init__`, `current_balances` starts empty
and `balance_changed` false. -/
structure LedgerSt where
  last_balance_hash : Option String
  last_balance_data : List (String × Balance)
  current_balances : List (String × Balance)
  balance_changed : Bool
deriving DecidableEq, Repr

/-- Python dict assignment `d[k] = v`: replace in place, else append. -/
def dictSet (k : String) (v : Balance) : List (String × Balance) → List (String × Balance)
  | [] => [(k, v)]
  | (k2, v2) :: rest => if k2 == k then (k2, v) :: rest else (k2, v2) :: dictSet k v rest

/-- `_show_balance_change` (src/checkin.py:705-755): no output for a
key with no previous-run baseline; otherwise a change notice carrying
the recharge, consumption and quota deltas exactly when the recharge
total or the used amount moved. -/
def show_balance_change (last_balance_data : List (String × Balance))
    (account_key : String) (current_balance : Balance) : Option (ℚ × ℚ × ℚ) :=
  match List.lookup account_key last_balance_data with
  | none => none
  | some last_balance =>
    let last_total := last_balance.quota + last_balance.used
    let current_total := current_balance.quota + current_balance.used
    let total_recharge := current_total - last_total
    let used_change := current_balance.used - last_balance.used
    let quota_change := current_balance.quota - last_balance.quota
    if total_recharge ≠ 0 ∨ used_change ≠ 0 then
      some (total_recharge, used_change, quota_change)
    else none

/-- `_check_balance_change` (src/checkin.py:771-792): no-op on an empty
current-run map; otherwise set `balance_changed` (first run, or hash
mismatch) and persist the new hash and the full balance map
unconditionally. -/
def check_balance_change (st : LedgerSt) : LedgerSt × List Ev :=
  if st.current_balances = [] then (st, [])
  else
    let current_hash := generate_balance_hash st.current_balances
    let changed :=
      match st.last_balance_hash with
      | none => true
      | some h => current_hash != h
    ({ st with balance_changed := changed },
     [.saveHash current_hash, .saveData st.current_balances])

/-- `has_balance_changed` (src/checkin.py:794-796). -/
def has_balance_changed (st : LedgerSt) : Bool := st.balance_changed

/-! ### CheckinOrchestrator: per-account pipelines and `run_all` -/

/-- `_make_result` (src/checkin.py:663-675); the `balance` key is added
only when a balance is present (the timestamp is not modelled). -/
structure CheckResult where
  platform : String
  name : String
  success : Bool
  message : String
  balance : Option Balance
deriving DecidableEq, Repr

/-- `_make_result` as a constructor function. -/
def make_result (platform name : String) (success : Bool) (message : String)
    (balance : Option Balance) : CheckResult :=
  ⟨platform, name, success, message, balance⟩

/-- Python truthiness of an `Optional[Dict]`: both `None` and the empty
dict are falsy. -/
def pyTruthyDict {α : Type} (o : Option (List α)) : Bool :=
  match o with
  | none => false
  | some m => !m.isEmpty

/-- Oracle inputs for one AnyRouter account: resolved display name,
configured `api_user`, the `parse_cookies` outcome, the
`_get_waf_cookies` outcome for the login URL, and the two HTTP
responses.  `Except.error` is a raised exception carrying `str(e)`. -/
structure AnyrouterEnv where
  name : String
  api_user : String
  parsed_cookies : Except String (List (String × String))
  waf : Except String (Option (List (String × String)))
  self_resp : Except String HttpResp
  sign_resp : Except String HttpResp

/-- The output of a successful `_login_agentrouter`: merged cookies and
the recovered (possibly empty) user id. -/
structure LoginResult where
  cookies : List (String × String)
  api_user : String

/-- Oracle inputs for one AgentRouter account. -/
structure AgentrouterEnv where
  name : String
  email : String
  password : String
  api_user : String
  login : Except String (Option LoginResult)
  parsed_cookies : Except String (List (String × String))
  harvest : String → Except String (Option (List (String × String)))
  self_resp : Except String HttpResp
  sign_resp : Except String HttpResp

/-- `_get_waf_cookies_with_fallback` (src/checkin.py:214-223): try each
URL in order, return the first truthy cookie dict, `None` when every
URL yields nothing; an exception from `_get_waf_cookies` propagates. -/
def get_waf_cookies_with_fallback
    (harvest : String → Except String (Option (List (String × String)))) :
    List String → Except String (Option (List (String × String)))
  | [] => .ok none
  | url :: rest =>
    match harvest url with
    | .error e => .error e
    | .ok cookies =>
      if pyTruthyDict cookies then .ok cookies
      else get_waf_cookies_with_fallback harvest rest

/-- Recording of a freshly observed balance (src/checkin.py:129-135 and
199-205): when the check-in attempt carried a balance, store it in
`current_balances` under `{platform}_{name}` and run the delta report
against the previous run's data. -/
def record_balance (key_head name : String) (st : LedgerSt)
    (out : Bool × String × Option Balance) : LedgerSt × List Ev :=
  match out.2.2 with
  | none => (st, [])
  | some b =>
    let account_key := key_head ++ name
    ({ st with current_balances := dictSet account_key b st.current_balances },
     [.record account_key b, .deltaCheck account_key] ++
       (match show_balance_change st.last_balance_data account_key b with
        | some n => [.notice account_key n.1 n.2.1 n.2.2]
        | none => []))

/-- The body of the `try` block of `checkin_anyrouter`
(src/checkin.py:101-137); `.error` is an exception escaping to the
per-account boundary handler. -/
def checkin_anyrouter_body (env : AnyrouterEnv) (st : LedgerSt) :
    Except String (LedgerSt × List Ev × CheckResult) :=
  if env.api_user = "" then
    .ok (st, [], make_result "AnyRouter" env.name false "API User ID 未配置" none)
  else
    match env.parsed_cookies with
    | .error e => .error e
    | .ok user_cookies =>
      if user_cookies.isEmpty then
        .ok (st, [], make_result "AnyRouter" env.name false "Cookies 格式错误" none)
      else
        match env.waf with
        | .error e => .error e
        | .ok waf_cookies =>
          if !pyTruthyDict waf_cookies then
            .ok (st, [], make_result "AnyRouter" env.name false "无法获取 WAF cookies" none)
          else
            let out := do_anyrouter_checkin env.self_resp env.sign_resp
            let rec_ := record_balance "anyrouter_" env.name st out
            .ok (rec_.1, rec_.2, make_result "AnyRouter" env.name out.1 out.2.1 out.2.2)

/-- `checkin_anyrouter` (src/checkin.py:94-142) with its per-account
exception boundary (lines 139-142). -/
def checkin_anyrouter (env : AnyrouterEnv) (st : LedgerSt) :
    LedgerSt × List Ev × CheckResult :=
  match checkin_anyrouter_body env st with
  | .ok r => r
  | .error e =>
    (st, [], make_result "AnyRouter" env.name false ("签到异常: " ++ pyTrunc e 50) none)

/-- The body of the `try` block of `checkin_agentrouter`
(src/checkin.py:151-207): credential-login branch when both email and
password are configured, otherwise the cookie branch with the
(non-fatal) WAF-cookie fallback over the two AgentRouter URLs. -/
def checkin_agentrouter_body (env : AgentrouterEnv) (st : LedgerSt) :
    Except String (LedgerSt × List Ev × CheckResult) :=
  if env.email ≠ "" ∧ env.password ≠ "" then
    match env.login with
    | .error e => .error e
    | .ok none =>
      .ok (st, [], make_result "AgentRouter" env.name false "账号密码登录失败" none)
    | .ok (some _login_result) =>
      let out := do_agentrouter_checkin env.self_resp env.sign_resp
      let rec_ := record_balance "agentrouter_" env.name st out
      .ok (rec_.1, rec_.2, make_result "AgentRouter" env.name out.1 out.2.1 out.2.2)
  else
    if env.api_user = "" then
      .ok (st, [], make_result "AgentRouter" env.name false "API User ID 未配置" none)
    else
      match env.parsed_cookies with
      | .error e => .error e
      | .ok user_cookies =>
        if user_cookies.isEmpty then
          .ok (st, [], make_result "AgentRouter" env.name false "Cookies 格式错误" none)
        else
          match get_waf_cookies_with_fallback env.harvest
              ["https://agentrouter.org", "https://agentrouter.org/console"] with
          | .error e => .error e
          | .ok _waf_cookies =>
            let out := do_agentrouter_checkin env.self_resp env.sign_resp
            let rec_ := record_balance "agentrouter_" env.name st out
            .ok (rec_.1, rec_.2, make_result "AgentRouter" env.name out.1 out.2.1 out.2.2)

/-- `checkin_agentrouter` (src/checkin.py:144-212) with its per-account
exception boundary (lines 209-212). -/
def checkin_agentrouter (env : AgentrouterEnv) (st : LedgerSt) :
    LedgerSt × List Ev × CheckResult :=
  match checkin_agentrouter_body env st with
  | .ok r => r
  | .error e =>
    (st, [], make_result "AgentRouter" env.name false ("签到异常: " ++ pyTrunc e 50) none)

/-- One platform loop of `run_all` (src/checkin.py:38-42 and 50-54):
process the accounts in list order, after each account's events a
pacing `asyncio.sleep(2)`. -/
def run_accounts {ε : Type} (f : ε → LedgerSt → LedgerSt × List Ev × CheckResult)
    (platform : String) : List ε → LedgerSt → LedgerSt × List Ev × List CheckResult
  | [], st => (st, [], [])
  | env :: rest, st =>
    let step := f env st
    let tail := run_accounts f platform rest step.1
    (tail.1,
     Ev.process platform step.2.2.name :: step.2.1 ++ Ev.sleep 2 :: tail.2.1,
     step.2.2 :: tail.2.2)

/-- `run_all` (src/checkin.py:32-63): AnyRouter accounts, a summary for
a non-empty platform list, AgentRouter accounts and summary, and the
final balance-change pass.  Returns the final ledger state, the event
trace and the concatenated outcome list. -/
def run_all (anyrouter_accounts : List AnyrouterEnv)
    (agentrouter_accounts : List AgentrouterEnv) (st : LedgerSt) :
    LedgerSt × List Ev × List CheckResult :=
  let s1 := run_accounts checkin_anyrouter "AnyRouter" anyrouter_accounts st
  let sum1 : List Ev := if s1.2.2.isEmpty then [] else [Ev.summary "AnyRouter"]
  let s2 := run_accounts checkin_agentrouter "AgentRouter" agentrouter_accounts s1.1
  let sum2 : List Ev := if s2.2.2.isEmpty then [] else [Ev.summary "AgentRouter"]
  let fin := check_balance_change s2.1
  (fin.1, s1.2.1 ++ sum1 ++ s2.2.1 ++ sum2 ++ fin.2, s1.2.2 ++ s2.2.2)

/-- The platform/name projection of an event trace, in order. -/
def processed : List Ev → List (String × String)
  | [] => []
  | .process p n :: rest => (p, n) :: processed rest
  | _ :: rest => processed rest

/-- The number of pacing sleeps in an event trace. -/
def sleep_count : List Ev → Nat
  | [] => 0
  | .sleep _ :: rest => sleep_count rest + 1
  | _ :: rest => sleep_count rest

/-! ### Concrete fixtures used by witnesses and counterexamples -/

/-- A fresh ledger state: first run, nothing recorded yet. -/
def st0 : LedgerSt := ⟨none, [], [], false⟩

/-- A step-1 `self` response granting balance `$1.00 / $0.00`
(raw quota 500000, raw used 0). -/
def selfRespOK : HttpResp :=
  ⟨200, "",
   .ok [("success", .bool true),
        ("data", .obj [("quota", .int 500000), ("used_quota", .int 0)])]⟩

/-- AnyRouter account whose step 1 succeeds but whose sign-in POST
raises a network exception. -/
def anyDropEnv : AnyrouterEnv :=
  ⟨"a", "u", .ok [("session", "x")], .ok (some [("acw_tc", "y")]), .ok selfRespOK, .error "boom"⟩

/-- AnyRouter account whose step 1 succeeds and whose sign-in POST
returns a failing HTTP-200 verdict (`code = 5`). -/
def anyRecEnv : AnyrouterEnv :=
  ⟨"a", "u", .ok [("session", "x")], .ok (some [("acw_tc", "y")]), .ok selfRespOK,
   .ok ⟨200, "", .ok [("code", .int 5)]⟩⟩

/-- AgentRouter cookie-mode account: no WAF cookies found anywhere, step
1 succeeds, sign-in endpoint missing (HTTP 404). -/
def agRecEnv : AgentrouterEnv :=
  ⟨"g", "", "", "u", .ok none, .ok [("session", "x")], fun _ => .ok none, .ok selfRespOK,
   .ok ⟨404, "", .error "Expecting value"⟩⟩

/-- AgentRouter account that fails immediately: no credentials and no
configured `api_user`. -/
def agFailEnv : AgentrouterEnv :=
  ⟨"a", "", "", "", .ok none, .ok [], fun _ => .ok none, .error "", .error ""⟩

/-- AnyRouter account whose `parse_cookies` step raises. -/
def anyRaiseEnv : AnyrouterEnv :=
  ⟨"a", "u", .error "boom", .ok none, .error "", .error ""⟩

/-- AgentRouter cookie-mode account whose `parse_cookies` step raises. -/
def agRaiseEnv : AgentrouterEnv :=
  ⟨"g", "", "", "u2", .ok none, .error "boom", fun _ => .ok none, .error "", .error ""⟩

/-! ### Helper lemmas -/

theorem pyTrunc_length_le (s : String) (n : Nat) : (pyTrunc s n).length ≤ n := by
  simp only [pyTrunc, String.length, List.length_take]
  omega

theorem wordHexChars_length (w : Nat) : (wordHexChars w).length = 8 := by
  simp [wordHexChars]

theorem shaHexChars_length (s : Sha) : (shaHexChars s).length = 64 := by
  simp [shaHexChars, wordHexChars_length]

theorem generate_balance_hash_length (b : List (String × Balance)) :
    (generate_balance_hash b).length = 16 := by
  unfold generate_balance_hash
  simp [String.length, List.length_take, shaHexChars_length]

theorem lookup_dictSet_self (k : String) (v : Balance) (l : List (String × Balance)) :
    List.lookup k (dictSet k v l) = some v := by
  induction l with
  | nil => simp [dictSet, List.lookup]
  | cons hd tl ih =>
    obtain ⟨k2, v2⟩ := hd
    by_cases h : k2 = k
    · subst h
      simp [dictSet, List.lookup]
    · have h1 : (k2 == k) = false := beq_eq_false_iff_ne.mpr h
      have h2 : (k == k2) = false := beq_eq_false_iff_ne.mpr (Ne.symm h)
      simp [dictSet, List.lookup, h1, h2, ih]

theorem processed_append (a b : List Ev) :
    processed (a ++ b) = processed a ++ processed b := by
  induction a with
  | nil => simp [processed]
  | cons e rest ih => cases e <;> simp [processed, ih]

theorem sleep_count_append (a b : List Ev) :
    sleep_count (a ++ b) = sleep_count a + sleep_count b := by
  induction a with
  | nil => simp [sleep_count]
  | cons e rest ih => cases e <;> simp [sleep_count, ih] <;> omega

theorem record_balance_quiet (kh n : String) (st : LedgerSt)
    (out : Bool × String × Option Balance) :
    processed (record_balance kh n st out).2 = [] ∧
    sleep_count (record_balance kh n st out).2 = 0 := by
  obtain ⟨s, m, ob⟩ := out
  cases ob with
  | none => simp [record_balance, processed, sleep_count]
  | some b =>
    simp only [record_balance]
    cases show_balance_change st.last_balance_data (kh ++ n) b <;>
      simp [processed, sleep_count]

theorem record_balance_lookup (kh n : String) (st : LedgerSt)
    (out : Bool × String × Option Balance) (b : Balance) (h : out.2.2 = some b) :
    List.lookup (kh ++ n) (record_balance kh n st out).1.current_balances = some b ∧
    Ev.deltaCheck (kh ++ n) ∈ (record_balance kh n st out).2 := by
  obtain ⟨s, m, ob⟩ := out
  simp only at h
  subst h
  constructor
  · simp [record_balance, lookup_dictSet_self]
  · simp only [record_balance]
    cases show_balance_change st.last_balance_data (kh ++ n) b <;> simp

theorem checkin_anyrouter_body_ok (env : AnyrouterEnv) (st : LedgerSt)
    (r : LedgerSt × List Ev × CheckResult) (h : checkin_anyrouter_body env st = .ok r) :
    r.2.2.platform = "AnyRouter" ∧ r.2.2.name = env.name ∧
    processed r.2.1 = [] ∧ sleep_count r.2.1 = 0 := by
  unfold checkin_anyrouter_body at h
  repeat' split at h
  all_goals first
    | exact Except.noConfusion h
    | (injection h with h
       subst h
       simp [make_result, processed, sleep_count, record_balance_quiet])

theorem checkin_agentrouter_body_ok (env : AgentrouterEnv) (st : LedgerSt)
    (r : LedgerSt × List Ev × CheckResult) (h : checkin_agentrouter_body env st = .ok r) :
    r.2.2.platform = "AgentRouter" ∧ r.2.2.name = env.name ∧
    processed r.2.1 = [] ∧ sleep_count r.2.1 = 0 := by
  unfold checkin_agentrouter_body at h
  repeat' split at h
  all_goals first
    | exact Except.noConfusion h
    | (injection h with h
       subst h
       simp [make_result, processed, sleep_count, record_balance_quiet])

theorem checkin_anyrouter_shape (env : AnyrouterEnv) (st : LedgerSt) :
    (checkin_anyrouter env st).2.2.platform = "AnyRouter" ∧
    (checkin_anyrouter env st).2.2.name = env.name ∧
    processed (checkin_anyrouter env st).2.1 = [] ∧
    sleep_count (checkin_anyrouter env st).2.1 = 0 := by
  unfold checkin_anyrouter
  cases h : checkin_anyrouter_body env st with
  | ok r => simpa using checkin_anyrouter_body_ok env st r h
  | error e => simp [make_result, processed, sleep_count]

theorem checkin_agentrouter_shape (env : AgentrouterEnv) (st : LedgerSt) :
    (checkin_agentrouter env st).2.2.platform = "AgentRouter" ∧
    (checkin_agentrouter env st).2.2.name = env.name ∧
    processed (checkin_agentrouter env st).2.1 = [] ∧
    sleep_count (checkin_agentrouter env st).2.1 = 0 := by
  unfold checkin_agentrouter
  cases h : checkin_agentrouter_body env st with
  | ok r => simpa using checkin_agentrouter_body_ok env st r h
  | error e => simp [make_result, processed, sleep_count]

theorem run_accounts_results_length {ε : Type}
    (f : ε → LedgerSt → LedgerSt × List Ev × CheckResult) (p : String)
    (envs : List ε) (st : LedgerSt) :
    ((run_accounts f p envs st).2.2).length = envs.length := by
  induction envs generalizing st with
  | nil => simp [run_accounts]
  | cons e rest ih => simp [run_accounts, ih]

theorem run_accounts_processed {ε : Type}
    (f : ε → LedgerSt → LedgerSt × List Ev × CheckResult) (p : String) (nm : ε → String)
    (hname : ∀ env st, ((f env st).2.2).name = nm env)
    (hproc : ∀ env st, processed (f env st).2.1 = [])
    (envs : List ε) (st : LedgerSt) :
    processed (run_accounts f p envs st).2.1 = envs.map (fun e => (p, nm e)) := by
  induction envs generalizing st with
  | nil => simp [run_accounts, processed]
  | cons e rest ih =>
    simp [run_accounts, processed, processed_append, hname, hproc, ih]

theorem run_accounts_sleep_count {ε : Type}
    (f : ε → LedgerSt → LedgerSt × List Ev × CheckResult) (p : String)
    (hsleep : ∀ env st, sleep_count (f env st).2.1 = 0)
    (envs : List ε) (st : LedgerSt) :
    sleep_count (run_accounts f p envs st).2.1 = envs.length := by
  induction envs generalizing st with
  | nil => simp [run_accounts, sleep_count]
  | cons e rest ih =>
    simp [run_accounts, sleep_count, sleep_count_append, hsleep, ih]

theorem run_accounts_ends_sleep {ε : Type}
    (f : ε → LedgerSt → LedgerSt × List Ev × CheckResult) (p : String)
    (env0 : ε) (envs : List ε) (st : LedgerSt) :
    ∃ pre, (run_accounts f p (env0 :: envs) st).2.1 = pre ++ [Ev.sleep 2] := by
  induction envs generalizing env0 st with
  | nil =>
    refine ⟨Ev.process p ((f env0 st).2.2).name :: (f env0 st).2.1, ?_⟩
    simp [run_accounts]
  | cons e rest ih =>
    obtain ⟨pre, hpre⟩ := ih e (f env0 st).1
    refine ⟨Ev.process p ((f env0 st).2.2).name :: (f env0 st).2.1 ++ Ev.sleep 2 :: pre, ?_⟩
    have hstep : (run_accounts f p (env0 :: e :: rest) st).2.1 =
        Ev.process p ((f env0 st).2.2).name :: (f env0 st).2.1 ++
          Ev.sleep 2 :: (run_accounts f p (e :: rest) (f env0 st).1).2.1 := rfl
    rw [hstep, hpre]
    simp

theorem check_balance_change_quiet (st : LedgerSt) :
    processed (check_balance_change st).2 = [] ∧
    sleep_count (check_balance_change st).2 = 0 := by
  unfold check_balance_change
  split <;> simp [processed, sleep_count]

theorem selfRespOK_balance_raw : self_balance (.ok selfRespOK) =
    some ⟨pyRound2 (((500000:ℤ):ℚ) / 500000), pyRound2 (((0:ℤ):ℚ) / 500000)⟩ := rfl

theorem selfRespOK_balance : self_balance (.ok selfRespOK) = some ⟨1, 0⟩ := by
  rw [selfRespOK_balance_raw]
  norm_num [pyRound2, roundHalfEven, qfloor]

/-! ### Claim theorems -/

/-- C4: `finalizeRun` (`_check_balance_change`) is a no-op on an empty
current-run balance map (state, including `balance_changed`, untouched
and nothing persisted); on a non-empty map it sets `balance_changed`
(true on a first run with no previous hash, otherwise true exactly when
the 16-hex fingerprint differs textually from the previous hash) and
persists the new hash and the full current-run balance map regardless
of the verdict. -/
theorem finalize_run_spec (st : LedgerSt) :
    (st.current_balances = [] → check_balance_change st = (st, [])) ∧
    (st.current_balances ≠ [] →
      check_balance_change st =
        ({ st with balance_changed :=
             match st.last_balance_hash with
             | none => true
             | some h => generate_balance_hash st.current_balances != h },
         [.saveHash (generate_balance_hash st.current_balances),
          .saveData st.current_balances]) ∧
      (generate_balance_hash st.current_balances).length = 16) ∧
    (∀ h, st.last_balance_hash = some h → st.current_balances ≠ [] →
      ((check_balance_change st).1.balance_changed = true ↔
        generate_balance_hash st.current_balances ≠ h)) := by
  refine ⟨fun he => ?_, fun hne => ⟨?_, generate_balance_hash_length _⟩, fun h hh hne => ?_⟩
  · simp [check_balance_change, he]
  · simp [check_balance_change, hne]
  · simp [check_balance_change, hne, hh, bne_iff_ne]

/-- C4 witness: an empty map is left alone; a non-empty first run
reports changed; with a previous hash the verdict is the textual hash
comparison. -/
theorem finalize_run_spec_witness :
    check_balance_change st0 = (st0, []) ∧
    (check_balance_change ⟨none, [], [("k", ⟨1, 0⟩)], false⟩).1.balance_changed = true ∧
    ((check_balance_change ⟨some "x", [], [("k", ⟨1, 0⟩)], false⟩).1.balance_changed = true ↔
      generate_balance_hash [("k", ⟨1, 0⟩)] ≠ "x") := by
  refine ⟨(finalize_run_spec st0).1 rfl, ?_, ?_⟩
  · rw [((finalize_run_spec ⟨none, [], [("k", ⟨1, 0⟩)], false⟩).2.1 (by simp)).1]
  · exact (finalize_run_spec ⟨some "x", [], [("k", ⟨1, 0⟩)], false⟩).2.2 "x" rfl (by simp)

/-- C5: `reportDelta` (`_show_balance_change`) reports nothing for an
account key absent from the previous run's map; for a present key it
emits a change notice exactly when the recharge delta
`(currentQuota+currentUsed) - (lastQuota+lastUsed)` or the used delta
`currentUsed - lastUsed` is non-zero; in particular an unchanged
balance produces no notice. -/
theorem report_delta_spec (last : List (String × Balance)) (key : String) (cur : Balance) :
    (List.lookup key last = none → show_balance_change last key cur = none) ∧
    (∀ lb, List.lookup key last = some lb →
      (show_balance_change last key cur ≠ none ↔
        ((cur.quota + cur.used) - (lb.quota + lb.used) ≠ 0 ∨ cur.used - lb.used ≠ 0))) ∧
    (List.lookup key last = some cur → show_balance_change last key cur = none) := by
  have key2 : ∀ lb, List.lookup key last = some lb →
      show_balance_change last key cur =
        (if (cur.quota + cur.used) - (lb.quota + lb.used) ≠ 0 ∨ cur.used - lb.used ≠ 0 then
          some ((cur.quota + cur.used) - (lb.quota + lb.used), cur.used - lb.used,
                cur.quota - lb.quota)
         else none) := by
    intro lb hl
    unfold show_balance_change
    rw [hl]
  refine ⟨fun hn => ?_, fun lb hl => ?_, fun hc => ?_⟩
  · simp [show_balance_change, hn]
  · rw [key2 lb hl]
    by_cases hor : (cur.quota + cur.used) - (lb.quota + lb.used) ≠ 0 ∨ cur.used - lb.used ≠ 0
    · rw [if_pos hor]
      simpa using hor
    · rw [if_neg hor]
      simpa using hor
  · rw [key2 cur hc, if_neg]
    push_neg
    exact ⟨by ring, by ring⟩

/-- C5 witness: absent key → nothing; present key with a moved total →
a notice; identical balance → nothing. -/
theorem report_delta_spec_witness :
    show_balance_change [("k", ⟨2, 1⟩)] "z" ⟨3, 1⟩ = none ∧
    show_balance_change [("k", ⟨2, 1⟩)] "k" ⟨3, 1⟩ ≠ none ∧
    show_balance_change [("k", ⟨2, 1⟩)] "k" ⟨2, 1⟩ = none := by
  refine ⟨(report_delta_spec [("k", ⟨2, 1⟩)] "z" ⟨3, 1⟩).1 (by decide), ?_,
    (report_delta_spec [("k", ⟨2, 1⟩)] "k" ⟨2, 1⟩).2.2 (by decide)⟩
  exact ((report_delta_spec [("k", ⟨2, 1⟩)] "k" ⟨3, 1⟩).2.1 ⟨2, 1⟩ (by decide)).mpr
    (by norm_num)

/-- C1 (corrected): only the AgentRouter client treats a sign-in HTTP
404 as a keep-alive: success iff a step-1 balance is present, with the
fixed message `保活成功（无签到接口）` distinct from the real check-in
message `签到成功`, and failure `保活失败: 无法获取用户信息` without a
balance.  The AnyRouter client has no 404 branch: HTTP 404 falls into
the generic non-200 failure `签到失败: HTTP 404`, balance or not. -/
theorem http404_keepalive_spec (balance : Option Balance) (resp : HttpResp)
    (hst : resp.status_code = 404) :
    (∀ b, balance = some b →
      agentrouter_sign_interpret balance (.ok resp) =
        (true, "保活成功（无签到接口）", some b)) ∧
    (balance = none →
      agentrouter_sign_interpret balance (.ok resp) =
        (false, "保活失败: 无法获取用户信息", none)) ∧
    "保活成功（无签到接口）" ≠ "签到成功" ∧
    anyrouter_sign_interpret balance (.ok resp) =
      (false, "签到失败: HTTP 404", balance) := by
  refine ⟨fun b hb => ?_, fun hb => ?_, by decide, ?_⟩
  · subst hb
    simp [agentrouter_sign_interpret, hst]
  · subst hb
    simp [agentrouter_sign_interpret, hst]
  · rw [anyrouter_sign_interpret, hst]
    norm_num
    decide

/-- C1 counterexample: on AnyRouter a sign-in HTTP 404 with a step-1
balance present is a *failure* (`签到失败: HTTP 404`), not a keep-alive
success as the claim asserts for both platforms. -/
theorem http404_anyrouter_cx :
    self_balance (.ok selfRespOK) = some ⟨1, 0⟩ ∧
    do_anyrouter_checkin (.ok selfRespOK) (.ok ⟨404, "", .error "Expecting value"⟩) =
      (false, "签到失败: HTTP 404", some ⟨1, 0⟩) := by
  refine ⟨selfRespOK_balance, ?_⟩
  rw [do_anyrouter_checkin, selfRespOK_balance]
  simp [anyrouter_sign_interpret]
  decide

/-- C1 witness: the amended statement at concrete inputs — AgentRouter
404 with balance → keep-alive success, without balance → failure,
AnyRouter 404 → failure. -/
theorem http404_keepalive_spec_witness :
    agentrouter_sign_interpret (some ⟨1, 0⟩) (.ok ⟨404, "", .error "x"⟩) =
      (true, "保活成功（无签到接口）", some ⟨1, 0⟩) ∧
    agentrouter_sign_interpret none (.ok ⟨404, "", .error "x"⟩) =
      (false, "保活失败: 无法获取用户信息", none) ∧
    anyrouter_sign_interpret none (.ok ⟨404, "", .error "x"⟩) =
      (false, "签到失败: HTTP 404", none) := by
  have h1 := http404_keepalive_spec (some ⟨1, 0⟩) ⟨404, "", .error "x"⟩ rfl
  have h2 := http404_keepalive_spec none ⟨404, "", .error "x"⟩ rfl
  exact ⟨h1.1 ⟨1, 0⟩ rfl, h2.2.1 rfl, h2.2.2.2⟩

/-- C2 (corrected): the raw-body `"success"` substring fallback for an
HTTP 200 whose body fails to parse as JSON exists only in the AnyRouter
client.  In the AgentRouter client the `response.json()` exception
escapes to the request-level handler: failure with the truncated
exception text (`请求异常: ...`) and the balance dropped — no substring
check. -/
theorem parse_fallback_spec (balance : Option Balance) (resp : HttpResp) (e : String)
    (hst : resp.status_code = 200) (hjs : resp.json = .error e) :
    anyrouter_sign_interpret balance (.ok resp) =
      (if py_in "success" (pyLower resp.text) then (true, "签到成功", balance)
       else (false, "签到失败: 响应格式错误", balance)) ∧
    agentrouter_sign_interpret balance (.ok resp) =
      (false, "请求异常: " ++ pyTrunc e 50, none) := by
  constructor
  · simp [anyrouter_sign_interpret, hst, hjs]
  · simp [agentrouter_sign_interpret, hst, hjs]

/-- C2 counterexample: an AgentRouter HTTP 200 whose body is the
unparseable text `Success!` — the substring check would say success,
but the outcome is the generic exception failure with the parse
exception's text, so the claim's "either platform" fails. -/
theorem agentrouter_parse_fallback_cx :
    py_in "success" (pyLower "Success!") = true ∧
    do_agentrouter_checkin (.ok selfRespOK)
        (.ok ⟨200, "Success!", .error "Expecting value: line 1 column 1 (char 0)"⟩) =
      (false, "请求异常: Expecting value: line 1 column 1 (char 0)", none) := by
  refine ⟨by decide, ?_⟩
  rw [do_agentrouter_checkin, selfRespOK_balance]
  simp [agentrouter_sign_interpret]
  decide

/-- C2 witness: the amended statement at concrete inputs — AnyRouter
falls back to the substring check (success here), AgentRouter fails
with the exception text. -/
theorem parse_fallback_spec_witness :
    anyrouter_sign_interpret none (.ok ⟨200, "...Success...", .error "bad"⟩) =
      (true, "签到成功", none) ∧
    agentrouter_sign_interpret none (.ok ⟨200, "...Success...", .error "bad"⟩) =
      (false, "请求异常: bad", none) := by
  have h := parse_fallback_spec none ⟨200, "...Success...", .error "bad"⟩ "bad" rfl rfl
  refine ⟨?_, h.2⟩
  rw [h.1]
  decide

/-- The fingerprint hash reads only the quota projection of the balance
map: two maps with the same key-to-quota association list (used amounts
free) hash identically.  (Half of claim C6; the claim's further
assertion that every single-quota change changes the 64-bit truncated
hash is an injectivity property of truncated SHA-256 and is neither
provable nor refutable here.) -/
theorem generate_balance_hash_quota_only (b1 b2 : List (String × Balance))
    (h : b1.map (fun kv => (kv.1, kv.2.quota)) = b2.map (fun kv => (kv.1, kv.2.quota))) :
    generate_balance_hash b1 = generate_balance_hash b2 := by
  unfold generate_balance_hash
  rw [h]

/-- C7: on either platform an HTTP 200 sign-in response with a
parseable JSON object body is a success (`签到成功`) exactly when
`ret == 1` or `code == 0` or a truthy `success` field is present;
otherwise a failure whose message is built from the `msg` field, then
the `message` field, defaulting to the fixed unknown-error text. -/
theorem signin_200_spec (balance : Option Balance) (resp : HttpResp)
    (result : List (String × JVal))
    (hst : resp.status_code = 200) (hjs : resp.json = .ok result) :
    anyrouter_sign_interpret balance (.ok resp) =
      (if signinVerdict result then (true, "签到成功", balance)
       else (false, "签到失败: " ++ pyStr (msgField result), balance)) ∧
    agentrouter_sign_interpret balance (.ok resp) =
      (if signinVerdict result then (true, "签到成功", balance)
       else (false, "签到失败: " ++ pyStr (msgField result), balance)) ∧
    signinVerdict result =
      (pyEqInt (jGet result "ret") 1 || pyEqInt (jGet result "code") 0 ||
        optTruthy (jGet result "success")) ∧
    msgField result = jGetD result "msg" (jGetD result "message" (.str "未知错误")) := by
  refine ⟨?_, ?_, rfl, rfl⟩
  · simp [anyrouter_sign_interpret, hst, hjs]
  · simp [agentrouter_sign_interpret, hst, hjs]

/-- C7 witness: `{"code": 5, "msg": "cooldown"}` fails with message
`签到失败: cooldown`; `{"ret": 1}` succeeds carrying the balance. -/
theorem signin_200_spec_witness :
    anyrouter_sign_interpret none
        (.ok ⟨200, "", .ok [("code", .int 5), ("msg", .str "cooldown")]⟩) =
      (false, "签到失败: cooldown", none) ∧
    agentrouter_sign_interpret (some ⟨1, 0⟩) (.ok ⟨200, "", .ok [("ret", .int 1)]⟩) =
      (true, "签到成功", some ⟨1, 0⟩) := by
  have h1 := signin_200_spec none ⟨200, "", .ok [("code", .int 5), ("msg", .str "cooldown")]⟩
    [("code", .int 5), ("msg", .str "cooldown")] rfl rfl
  have h2 := signin_200_spec (some ⟨1, 0⟩) ⟨200, "", .ok [("ret", .int 1)]⟩
    [("ret", .int 1)] rfl rfl
  refine ⟨?_, ?_⟩
  · rw [h1.1]
    decide
  · rw [h2.2.1]
    decide

theorem waf_fallback_cons (harvest : String → Except String (Option (List (String × String))))
    (url : String) (rest : List String) (c : Option (List (String × String)))
    (h : harvest url = .ok c) :
    get_waf_cookies_with_fallback harvest (url :: rest) =
      if pyTruthyDict c = true then .ok c else get_waf_cookies_with_fallback harvest rest := by
  rw [get_waf_cookies_with_fallback, h]

/-- C8: `harvestWithFallback` (`_get_waf_cookies_with_fallback`)
returns the harvest result of the first URL whose cookie dict is
truthy, irrespective of any later URLs, and returns absent exactly when
every URL yields nothing. -/
theorem waf_fallback_spec
    (harvest : String → Except String (Option (List (String × String))))
    (g : String → Option (List (String × String)))
    (urls pre_urls tail_urls : List String) (u : String) :
    ((∀ v ∈ urls, harvest v = .ok (g v)) →
      (get_waf_cookies_with_fallback harvest urls = .ok none ↔
        ∀ v ∈ urls, pyTruthyDict (g v) = false)) ∧
    ((∀ v ∈ pre_urls ++ u :: tail_urls, harvest v = .ok (g v)) →
      (∀ v ∈ pre_urls, pyTruthyDict (g v) = false) →
      pyTruthyDict (g u) = true →
      get_waf_cookies_with_fallback harvest (pre_urls ++ u :: tail_urls) = .ok (g u)) := by
  constructor
  · induction urls with
    | nil =>
      intro _
      simp [get_waf_cookies_with_fallback]
    | cons v rest ih =>
      intro hok
      have hv := hok v (List.mem_cons_self v rest)
      have hrest := ih (fun w hw => hok w (List.mem_cons_of_mem v hw))
      by_cases ht : pyTruthyDict (g v) = true
      · rw [waf_fallback_cons harvest v rest (g v) hv, if_pos ht]
        have hgne : g v ≠ none := by
          intro hno
          rw [hno] at ht
          simp [pyTruthyDict] at ht
        constructor
        · intro heq
          injection heq with h2
          exact absurd h2 hgne
        · intro hall
          exact absurd (hall v (List.mem_cons_self v rest)) (by simp [ht])
      · rw [waf_fallback_cons harvest v rest (g v) hv, if_neg ht]
        rw [hrest]
        constructor
        · intro hall w hw
          rcases List.mem_cons.mp hw with hweq | hwrest
          · subst hweq
            simpa using ht
          · exact hall w hwrest
        · intro hall w hw
          exact hall w (List.mem_cons_of_mem v hw)
  · induction pre_urls with
    | nil =>
      intro hok _ htu
      have hu := hok u (by simp)
      rw [List.nil_append, waf_fallback_cons harvest u tail_urls (g u) hu, if_pos htu]
    | cons v rest ih =>
      intro hok hpre htu
      have hv := hok v (by simp)
      have hfv : pyTruthyDict (g v) = false := hpre v (List.mem_cons_self v rest)
      rw [List.cons_append, waf_fallback_cons harvest v (rest ++ u :: tail_urls) (g v) hv,
        if_neg (by simp [hfv])]
      exact ih (fun w hw => hok w (List.mem_cons_of_mem v hw))
        (fun w hw => hpre w (List.mem_cons_of_mem v hw)) htu

/-- C8 witness: over two URLs that would both yield cookies, the first
one wins; when every URL yields nothing, the fallback returns absent. -/
theorem waf_fallback_spec_witness :
    get_waf_cookies_with_fallback
        (fun v => .ok (if v == "a" then some [("acw_tc", "1")] else some [("acw_tc", "2")]))
        ["a", "b"] = .ok (some [("acw_tc", "1")]) ∧
    get_waf_cookies_with_fallback (fun _ => .ok none) ["a", "b"] = .ok none := by
  constructor
  · exact (waf_fallback_spec
      (fun v => .ok (if v == "a" then some [("acw_tc", "1")] else some [("acw_tc", "2")]))
      (fun v => if v == "a" then some [("acw_tc", "1")] else some [("acw_tc", "2")])
      [] [] ["b"] "a").2 (fun _ _ => rfl) (by simp) (by decide)
  · exact ((waf_fallback_spec (fun _ => .ok none) (fun _ => none)
      ["a", "b"] [] [] "a").1 (fun _ _ => rfl)).mpr (by intro v _; rfl)

/-- C3 (corrected): `run_all` processes AnyRouter accounts then
AgentRouter accounts strictly in list order and inserts the fixed
2-second pacing sleep after *every* account's outcome — including after
the last account of the last platform (the trace after that final
sleep holds only the platform summary and the finalize writes, never
another account). -/
theorem run_all_pacing_spec (anyEnvs : List AnyrouterEnv) (agEnvs : List AgentrouterEnv)
    (st : LedgerSt) :
    processed (run_all anyEnvs agEnvs st).2.1 =
      anyEnvs.map (fun e => ("AnyRouter", e.name)) ++
        agEnvs.map (fun e => ("AgentRouter", e.name)) ∧
    sleep_count (run_all anyEnvs agEnvs st).2.1 = anyEnvs.length + agEnvs.length ∧
    (agEnvs ≠ [] → ∃ pre post, (run_all anyEnvs agEnvs st).2.1 =
      pre ++ Ev.sleep 2 :: Ev.summary "AgentRouter" :: post ∧
      processed post = [] ∧ sleep_count post = 0) := by
  have hsum : ∀ (c : Bool) (p : String),
      processed (if c then ([] : List Ev) else [Ev.summary p]) = [] ∧
      sleep_count (if c then ([] : List Ev) else [Ev.summary p]) = 0 := by
    intro c p
    cases c <;> simp [processed, sleep_count]
  refine ⟨?_, ?_, fun hne => ?_⟩
  · simp only [run_all]
    rw [processed_append, processed_append, processed_append, processed_append]
    rw [run_accounts_processed checkin_anyrouter "AnyRouter" AnyrouterEnv.name
          (fun env st => (checkin_anyrouter_shape env st).2.1)
          (fun env st => (checkin_anyrouter_shape env st).2.2.1),
        run_accounts_processed checkin_agentrouter "AgentRouter" AgentrouterEnv.name
          (fun env st => (checkin_agentrouter_shape env st).2.1)
          (fun env st => (checkin_agentrouter_shape env st).2.2.1)]
    rw [(hsum _ _).1, (hsum _ _).1, (check_balance_change_quiet _).1]
    simp
  · simp only [run_all]
    rw [sleep_count_append, sleep_count_append, sleep_count_append, sleep_count_append]
    rw [run_accounts_sleep_count checkin_anyrouter "AnyRouter"
          (fun env st => (checkin_anyrouter_shape env st).2.2.2),
        run_accounts_sleep_count checkin_agentrouter "AgentRouter"
          (fun env st => (checkin_agentrouter_shape env st).2.2.2)]
    rw [(hsum _ _).2, (hsum _ _).2, (check_balance_change_quiet _).2]
    simp
  · obtain ⟨env0, envs, rfl⟩ : ∃ e es, agEnvs = e :: es := by
      cases agEnvs with
      | nil => exact absurd rfl hne
      | cons e es => exact ⟨e, es, rfl⟩
    simp only [run_all]
    obtain ⟨pre2, hpre2⟩ := run_accounts_ends_sleep checkin_agentrouter "AgentRouter" env0 envs
      (run_accounts checkin_anyrouter "AnyRouter" anyEnvs st).1
    have hres : (run_accounts checkin_agentrouter "AgentRouter" (env0 :: envs)
        (run_accounts checkin_anyrouter "AnyRouter" anyEnvs st).1).2.2.isEmpty = false := by
      simp [run_accounts]
    rw [hpre2, hres]
    refine ⟨(run_accounts checkin_anyrouter "AnyRouter" anyEnvs st).2.1 ++
        (if (run_accounts checkin_anyrouter "AnyRouter" anyEnvs st).2.2.isEmpty
         then ([] : List Ev) else [Ev.summary "AnyRouter"]) ++ pre2,
      (check_balance_change
        (run_accounts checkin_agentrouter "AgentRouter" (env0 :: envs)
          (run_accounts checkin_anyrouter "AnyRouter" anyEnvs st).1).1).2,
      ?_, (check_balance_change_quiet _).1, (check_balance_change_quiet _).2⟩
    simp

/-- C3 witness: the amended statement on a one-account run — the
account is processed, exactly one pacing sleep occurs, and the trace
decomposes with a sleep right before the final platform summary. -/
theorem run_all_pacing_spec_witness :
    processed (run_all [] [agFailEnv] st0).2.1 = [("AgentRouter", "a")] ∧
    sleep_count (run_all [] [agFailEnv] st0).2.1 = 1 ∧
    (∃ pre post, (run_all [] [agFailEnv] st0).2.1 =
      pre ++ Ev.sleep 2 :: Ev.summary "AgentRouter" :: post ∧
      processed post = [] ∧ sleep_count post = 0) := by
  have h := run_all_pacing_spec [] [agFailEnv] st0
  refine ⟨?_, ?_, h.2.2 (by simp)⟩
  · rw [h.1]
    decide
  · rw [h.2.1]
    decide

/-- C3 counterexample: a run with a single AgentRouter account (the
last account of the last platform) still ends its per-account segment
with the pacing sleep — the trace is `process, sleep 2, summary`, so
the claimed "no trailing delay at the very end" is false. -/
theorem run_all_trailing_sleep_cx :
    (run_all [] [agFailEnv] st0).2.1 =
      [.process "AgentRouter" "a", .sleep 2, .summary "AgentRouter"] := by
  decide

/-- C9: an exception `e` escaping a per-account pipeline is caught at
the per-account boundary and becomes a failed outcome whose message
carries the exception text truncated to at most 50 characters; a
network-level exception in the sign-in request is likewise truncated
at the request level, with the balance absent on that path; and
`run_all` always yields one outcome per account, so no exception
aborts other accounts or the run. -/
theorem exception_boundary_spec (envA : AnyrouterEnv) (envG : AgentrouterEnv)
    (st : LedgerSt) (e : String) :
    (checkin_anyrouter_body envA st = .error e →
      checkin_anyrouter envA st =
        (st, [], make_result "AnyRouter" envA.name false ("签到异常: " ++ pyTrunc e 50) none)) ∧
    (checkin_agentrouter_body envG st = .error e →
      checkin_agentrouter envG st =
        (st, [], make_result "AgentRouter" envG.name false ("签到异常: " ++ pyTrunc e 50) none)) ∧
    (pyTrunc e 50).length ≤ 50 ∧
    (∀ balance, anyrouter_sign_interpret balance (.error e) =
      (false, "请求异常: " ++ pyTrunc e 50, none)) ∧
    (∀ balance, agentrouter_sign_interpret balance (.error e) =
      (false, "请求异常: " ++ pyTrunc e 50, none)) ∧
    (∀ (anyEnvs : List AnyrouterEnv) (agEnvs : List AgentrouterEnv),
      ((run_all anyEnvs agEnvs st).2.2).length = anyEnvs.length + agEnvs.length) := by
  refine ⟨fun h => ?_, fun h => ?_, pyTrunc_length_le e 50,
    fun balance => rfl, fun balance => rfl, fun anyEnvs agEnvs => ?_⟩
  · simp [checkin_anyrouter, h]
  · simp [checkin_agentrouter, h]
  · simp [run_all, run_accounts_results_length]

/-- C9 witness: a `parse_cookies` exception `boom` on each platform is
contained as a per-account failure with the truncated text, and a
network exception in the sign-in call is contained at request level. -/
theorem exception_boundary_spec_witness :
    checkin_anyrouter anyRaiseEnv st0 =
      (st0, [], make_result "AnyRouter" "a" false "签到异常: boom" none) ∧
    checkin_agentrouter agRaiseEnv st0 =
      (st0, [], make_result "AgentRouter" "g" false "签到异常: boom" none) ∧
    anyrouter_sign_interpret none (.error "boom") = (false, "请求异常: boom", none) := by
  have h := exception_boundary_spec anyRaiseEnv agRaiseEnv st0 "boom"
  refine ⟨?_, ?_, ?_⟩
  · rw [h.1 rfl]
    decide
  · rw [h.2.1 rfl]
    decide
  · rw [h.2.2.2.1 none]
    decide

theorem checkin_anyrouter_body_balance (env : AnyrouterEnv) (st : LedgerSt)
    (r : LedgerSt × List Ev × CheckResult) (b : Balance)
    (h : checkin_anyrouter_body env st = .ok r) (hb : r.2.2.balance = some b) :
    List.lookup ("anyrouter_" ++ env.name) r.1.current_balances = some b ∧
    Ev.deltaCheck ("anyrouter_" ++ env.name) ∈ r.2.1 := by
  unfold checkin_anyrouter_body at h
  repeat' split at h
  all_goals first
    | exact Except.noConfusion h
    | (injection h with h
       subst h
       first
         | exact record_balance_lookup "anyrouter_" env.name st _ b
             (by simpa [make_result] using hb)
         | simp [make_result] at hb)

theorem checkin_agentrouter_body_balance (env : AgentrouterEnv) (st : LedgerSt)
    (r : LedgerSt × List Ev × CheckResult) (b : Balance)
    (h : checkin_agentrouter_body env st = .ok r) (hb : r.2.2.balance = some b) :
    List.lookup ("agentrouter_" ++ env.name) r.1.current_balances = some b ∧
    Ev.deltaCheck ("agentrouter_" ++ env.name) ∈ r.2.1 := by
  unfold checkin_agentrouter_body at h
  repeat' split at h
  all_goals first
    | exact Except.noConfusion h
    | (injection h with h
       subst h
       first
         | exact record_balance_lookup "agentrouter_" env.name st _ b
             (by simpa [make_result] using hb)
         | simp [make_result] at hb)

/-- C10 (corrected): whenever a check-in attempt *returns* with a
balance — i.e. step 1 yielded one and no exception reached the
request-level handler — the account's entry in the current-run ledger
map under `{platform}_{accountName}` is set to that balance and the
delta report is run, even when the outcome's success flag is false.
(When the sign-in call raises, the step-1 balance is discarded and
nothing is recorded; see the counterexample.) -/
theorem balance_recording_spec (envA : AnyrouterEnv) (envG : AgentrouterEnv)
    (st : LedgerSt) (b : Balance) :
    (((checkin_anyrouter envA st).2.2).balance = some b →
      List.lookup ("anyrouter_" ++ envA.name)
          (checkin_anyrouter envA st).1.current_balances = some b ∧
      Ev.deltaCheck ("anyrouter_" ++ envA.name) ∈ (checkin_anyrouter envA st).2.1) ∧
    (((checkin_agentrouter envG st).2.2).balance = some b →
      List.lookup ("agentrouter_" ++ envG.name)
          (checkin_agentrouter envG st).1.current_balances = some b ∧
      Ev.deltaCheck ("agentrouter_" ++ envG.name) ∈ (checkin_agentrouter envG st).2.1) := by
  constructor
  · unfold checkin_anyrouter
    cases hbody : checkin_anyrouter_body envA st with
    | ok r =>
      intro hb
      exact checkin_anyrouter_body_balance envA st r b hbody hb
    | error e =>
      intro hb
      simp [make_result] at hb
  · unfold checkin_agentrouter
    cases hbody : checkin_agentrouter_body envG st with
    | ok r =>
      intro hb
      exact checkin_agentrouter_body_balance envG st r b hbody hb
    | error e =>
      intro hb
      simp [make_result] at hb

/-- C10 counterexample: step 1 yields the balance `$1.00/$0.00`, but
the sign-in POST raises a network exception, so the account's ledger
entry is *not* written (the current-run map stays empty) — the claim's
"whenever the step-1 self call yields a balance" fails on this path. -/
theorem balance_dropped_cx :
    self_balance anyDropEnv.self_resp = some ⟨1, 0⟩ ∧
    checkin_anyrouter anyDropEnv st0 =
      (st0, [], make_result "AnyRouter" "a" false "请求异常: boom" none) ∧
    List.lookup "anyrouter_a" st0.current_balances = none := by
  refine ⟨selfRespOK_balance, ?_, rfl⟩
  decide

/-- C10 witness: a failed HTTP-200 verdict (`code = 5`) still records
the step-1 balance under `anyrouter_a`, and an AgentRouter keep-alive
404 records under `agentrouter_g`. -/
theorem balance_recording_spec_witness :
    List.lookup "anyrouter_a" (checkin_anyrouter anyRecEnv st0).1.current_balances =
      some ⟨1, 0⟩ ∧
    (checkin_anyrouter anyRecEnv st0).2.2.success = false ∧
    List.lookup "agentrouter_g" (checkin_agentrouter agRecEnv st0).1.current_balances =
      some ⟨1, 0⟩ := by
  have hb1 : (checkin_anyrouter anyRecEnv st0).2.2.balance = some ⟨1, 0⟩ := by
    have hraw : (checkin_anyrouter anyRecEnv st0).2.2.balance =
        self_balance (.ok selfRespOK) := rfl
    rw [hraw, selfRespOK_balance]
  have hb2 : (checkin_agentrouter agRecEnv st0).2.2.balance = some ⟨1, 0⟩ := by
    have hraw : (checkin_agentrouter agRecEnv st0).2.2.balance =
        self_balance (.ok selfRespOK) := rfl
    rw [hraw, selfRespOK_balance]
  have h1 := (balance_recording_spec anyRecEnv agRecEnv st0 ⟨1, 0⟩).1 hb1
  have h2 := (balance_recording_spec anyRecEnv agRecEnv st0 ⟨1, 0⟩).2 hb2
  exact ⟨h1.1, rfl, h2.1⟩

end Checkin
